import Mathlib

/-!
# Verification of the RightCard card-data generator

A shallow embedding of `tools/generate_cards_json.py`: the field validators,
the note segmenter, the subcategory-multiplier resolver, the three row
assemblers (cards, programs, program quarters), the bundle digest and the
version-marker decision, together with theorems checking the natural-language
specification against this embedding.

Python strings are modelled as Lean `String`/`List Char` (code-point
semantics, ASCII case mapping); Python `float` values are modelled as exact
rationals `ℚ` (the finite decimal literals appearing in the data are
represented exactly; IEEE-754 rounding, `inf`/`nan` tokens and underscore
separators are outside the model).
-/

namespace RightCard

/-- Characters stripped by Python `str.strip()` with no argument
(ASCII whitespace: space, tab, newline, carriage return, vertical tab,
form feed). -/
def isPySpace (c : Char) : Bool :=
  c = ' ' || c = '\t' || c = '\n' || c = '\r' || c = Char.ofNat 11 || c = Char.ofNat 12

/-- Strip characters satisfying `p` from both ends of a character list,
as Python `str.strip` does. -/
def stripChars (p : Char → Bool) (cs : List Char) : List Char :=
  ((cs.dropWhile p).reverse.dropWhile p).reverse

/-- Python `str.strip()` (no argument). -/
def pyStrip (s : String) : String :=
  String.mk (stripChars isPySpace s.data)

/-- Python `str.lower()`, ASCII case mapping. -/
def pyLower (s : String) : String :=
  String.mk (s.data.map Char.toLower)

/-- Three-way code-point comparison of character lists: the order Python
uses for `str` comparison (`<`, `sort`). -/
def strCmp : List Char → List Char → Ordering
  | [], [] => .eq
  | [], _ :: _ => .lt
  | _ :: _, [] => .gt
  | c :: cs, d :: ds =>
    if c.val < d.val then .lt
    else if d.val < c.val then .gt
    else strCmp cs ds

/-- Python `a < b` on strings. -/
def pyStrLt (a b : String) : Bool :=
  strCmp a.data b.data == Ordering.lt

/-- Python `a <= b` on strings. -/
def pyStrLe (a b : String) : Bool :=
  !(strCmp b.data a.data == Ordering.lt)

/-- Does `n` occur as a prefix of `h`? (character-list version of
`startswith`). -/
def startsWithChars (n h : List Char) : Bool :=
  match n, h with
  | [], _ => true
  | _ :: _, [] => false
  | c :: cs, d :: ds => c = d && startsWithChars cs ds

/-- Index of the first occurrence of `n` in `h`, if any: Python
`h.find(n)` restricted to a found result. -/
def findSubFrom (h n : List Char) : Option Nat :=
  match h with
  | [] => if n.isEmpty then some 0 else none
  | _ :: t =>
    if startsWithChars n h then some 0
    else (findSubFrom t n).map (· + 1)

/-- The position-collection loop of `parse_notes`: repeatedly `find` the
needle and continue immediately after each match.  `fuel` bounds the number
of iterations; `findOccs` supplies enough fuel for the loop to run to
completion. -/
def findOccsAux (fuel : Nat) (h n : List Char) (base : Nat) : List Nat :=
  match fuel with
  | 0 => []
  | fuel + 1 =>
    match findSubFrom h n with
    | none => []
    | some i =>
      (base + i) :: findOccsAux fuel (h.drop (i + n.length)) n (base + i + n.length)

/-- All match positions of `n` in `h` as collected by the `while True`
loop in `parse_notes` (search resumes after the end of each match). -/
def findOccs (h n : List Char) : List Nat :=
  findOccsAux (h.length + 1) h n 0

/-- Stable insertion into a sorted list: `x` goes before the first element
`y` with `le x y`. -/
def insertLeB (le : α → α → Bool) (x : α) : List α → List α
  | [] => [x]
  | y :: ys => if le x y then x :: y :: ys else y :: insertLeB le x ys

/-- Stable sort by a boolean `le`, matching Python `list.sort` /
`sorted` (ascending, stable). -/
def sortLeB (le : α → α → Bool) : List α → List α
  | [] => []
  | x :: xs => insertLeB le x (sortLeB le xs)

/-- ASCII decimal digit test. -/
def isDigitChar (c : Char) : Bool :=
  '0' ≤ c && c ≤ '9'

/-- Numeric value of a digit character. -/
def digitVal (c : Char) : Nat :=
  c.toNat - '0'.toNat

/-- Value of a digit string, most significant first. -/
def digitsToNat (cs : List Char) : Nat :=
  cs.foldl (fun a c => a * 10 + digitVal c) 0

/-- The exponent part of a float literal: `e`/`E`, optional sign, at least
one digit, nothing after.  Returns the signed exponent. -/
def parseExpPart (cs : List Char) : Option Int :=
  match cs with
  | [] => some 0
  | e :: rest =>
    if e = 'e' || e = 'E' then
      let (neg, digs) :=
        match rest with
        | '+' :: r => (false, r)
        | '-' :: r => (true, r)
        | r => (false, r)
      if digs ≠ [] ∧ digs.all isDigitChar then
        some (if neg then -(digitsToNat digs : Int) else (digitsToNat digs : Int))
      else none
    else none

/-- Modelled from the spec and CPython: `float(v)` on a finite decimal
literal, as an exact rational.  Accepts an optional sign, an integer part
and/or fractional part (at least one digit overall), and an optional
exponent.  `inf`/`nan` and underscore separators are outside the model. -/
def parseFloatQ (cs0 : List Char) : Option ℚ :=
  let cs1 := stripChars isPySpace cs0
  let (neg, cs) :=
    match cs1 with
    | '+' :: r => (false, r)
    | '-' :: r => (true, r)
    | r => (false, r)
  let ip := cs.takeWhile isDigitChar
  let r1 := cs.dropWhile isDigitChar
  let (fp, r2) :=
    match r1 with
    | '.' :: t => (t.takeWhile isDigitChar, t.dropWhile isDigitChar)
    | t => ([], t)
  if ip ++ fp = [] then none
  else
    match parseExpPart r2 with
    | none => none
    | some e =>
      let e10 : Int := e - fp.length
      let scaled : ℚ :=
        if 0 ≤ e10 then ((digitsToNat (ip ++ fp) * 10 ^ e10.toNat : Nat) : ℚ)
        else mkRat (digitsToNat (ip ++ fp)) (10 ^ (-e10).toNat)
      some (if neg then -scaled else scaled)

deriving instance DecidableEq for Except

/-- Validation failures are modelled as `Except String`; the message text
mirrors the `ValidationError` message of the source. -/
abbrev VResult (α : Type) := Except String α

/-- `parse_number`: blank, non-numeric, or outside `[0,10]` fails; `-0.0`
is normalised to `0.0`. -/
def parseNumber (value fieldName rowId : String) : VResult ℚ :=
  let v := pyStrip value
  if v = "" then
    .error ("[" ++ rowId ++ "] " ++ fieldName ++ " is blank (must be a number).")
  else
    match parseFloatQ v.data with
    | none => .error ("[" ++ rowId ++ "] " ++ fieldName ++ "=" ++ value ++ " is not a valid number.")
    | some n =>
      if n < 0 ∨ n > 10 then
        .error ("[" ++ rowId ++ "] " ++ fieldName ++ " out of allowed range 0..10.")
      else if n = 0 then pure 0 else pure n

/-- `parse_optional_number`: blank yields `none`; a non-numeric value
fails; NO range check is performed here. -/
def parseOptionalNumber (value : String) : VResult (Option ℚ) :=
  let v := pyStrip value
  if v = "" then pure none
  else
    match parseFloatQ v.data with
    | none => .error ("Invalid number: " ++ value)
    | some q => pure (some q)

/-- Truncation toward zero, the behaviour of Python `int(float(v))`
(`Int.tdiv` rounds toward zero). -/
def ratTruncToInt (q : ℚ) : Int :=
  q.num.tdiv (q.den : Int)

/-- `parse_optional_int`: blank yields `none`; otherwise `int(float(v))`,
with NO sign or range check. -/
def parseOptionalInt (value : String) : VResult (Option Int) :=
  let v := pyStrip value
  if v = "" then pure none
  else
    match parseFloatQ v.data with
    | none => .error ("Invalid integer: " ++ value)
    | some q => pure (some (ratTruncToInt q))

/-- `validate_url_https`: the trimmed value must start with `https://`. -/
def validateUrlHttps (value fieldName rowId : String) : VResult String :=
  let v := pyStrip value
  if startsWithChars "https://".data v.data then pure v
  else .error ("[" ++ rowId ++ "] " ++ fieldName ++ " must start with https (got " ++ value ++ ").")

/-- `parse_bool_true_false`: fixed case-insensitive token sets. -/
def parseBoolTrueFalse (value fieldName rowId : String) : VResult Bool :=
  let v := pyLower (pyStrip value)
  if v = "true" ∨ v = "t" ∨ v = "yes" ∨ v = "y" ∨ v = "1" then pure true
  else if v = "false" ∨ v = "f" ∨ v = "no" ∨ v = "n" ∨ v = "0" then pure false
  else .error ("[" ++ rowId ++ "] " ++ fieldName ++ " must be TRUE/FALSE (got " ++ value ++ ").")

/-- Leap-year rule of the proleptic Gregorian calendar used by Python
`datetime`. -/
def isLeap (y : Nat) : Bool :=
  y % 4 = 0 && (y % 100 ≠ 0 || y % 400 = 0)

/-- Days in a month, as enforced by `datetime` construction. -/
def daysInMonth (y m : Nat) : Nat :=
  if m = 2 then (if isLeap y then 29 else 28)
  else if m = 4 ∨ m = 6 ∨ m = 9 ∨ m = 11 then 30
  else 31

/-- `%Y` of CPython `_strptime`: exactly four digits. -/
def matchYear4 : List Char → Option (Nat × List Char)
  | a :: b :: c :: d :: rest =>
    if [a, b, c, d].all isDigitChar then some (digitsToNat [a, b, c, d], rest) else none
  | _ => none

/-- `%m` of CPython `_strptime`: the regex alternation `1[0-2]|0[1-9]|[1-9]`,
every alternative that matches at the front, in regex order (so a
backtracking search can try each). -/
def monthAlts (cs : List Char) : List (Nat × List Char) :=
  (match cs with
   | '1' :: c :: rest =>
     if c = '0' ∨ c = '1' ∨ c = '2' then [(digitsToNat ['1', c], rest)] else []
   | _ => []) ++
  (match cs with
   | '0' :: c :: rest =>
     if isDigitChar c ∧ c ≠ '0' then [(digitVal c, rest)] else []
   | _ => []) ++
  (match cs with
   | c :: rest =>
     if isDigitChar c ∧ c ≠ '0' then [(digitVal c, rest)] else []
   | _ => [])

/-- `%d` of CPython `_strptime`: the regex alternation
`3[01]|[12]\d|0[1-9]|[1-9]`, every alternative matching at the front, in
regex order. -/
def dayAlts (cs : List Char) : List (Nat × List Char) :=
  (match cs with
   | '3' :: c :: rest =>
     if c = '0' ∨ c = '1' then [(digitsToNat ['3', c], rest)] else []
   | _ => []) ++
  (match cs with
   | a :: c :: rest =>
     if (a = '1' ∨ a = '2') ∧ isDigitChar c then [(digitsToNat [a, c], rest)] else []
   | _ => []) ++
  (match cs with
   | '0' :: c :: rest =>
     if isDigitChar c ∧ c ≠ '0' then [(digitVal c, rest)] else []
   | _ => []) ++
  (match cs with
   | c :: rest =>
     if isDigitChar c ∧ c ≠ '0' then [(digitVal c, rest)] else []
   | _ => [])

/-- First success of `f` over a list of alternatives: regex backtracking
over an alternation. -/
def firstSomeList (f : α → Option β) : List α → Option β
  | [] => none
  | x :: xs =>
    match f x with
    | some b => some b
    | none => firstSomeList f xs

/-- `datetime.strptime(v, "%Y-%m-%d")` at the regex level: four-digit
year, `-`, month alternation, `-`, day alternation, end of input, with
leftmost backtracking across the alternations. -/
def strptimeYmd (cs : List Char) : Option (Nat × Nat × Nat) :=
  match matchYear4 cs with
  | none => none
  | some (y, r1) =>
    match r1 with
    | '-' :: r2 =>
      firstSomeList (fun mr =>
        match mr.2 with
        | '-' :: r4 =>
          firstSomeList (fun dr =>
            if dr.2 = [] then some (y, mr.1, dr.1) else none) (dayAlts r4)
        | _ => none) (monthAlts r2)
    | _ => none

/-- Chronological key of a calendar date: for real dates
(`m ≤ 12`, `d ≤ 31`) its order is date order. -/
def dateNum (d : Nat × Nat × Nat) : Nat :=
  d.1 * 10000 + d.2.1 * 100 + d.2.2

/-- `validate_date_yyyy_mm_dd`: `strptime` plus the `datetime` constructor
check (caught by the same `except ValueError`), plus the future check when
the field is `verified_date`.  `today` is the current UTC date at run
time, a run parameter. -/
def validateDateYyyyMmDd (today : Nat × Nat × Nat) (value fieldName rowId : String) :
    VResult String :=
  let v := pyStrip value
  match strptimeYmd v.data with
  | none =>
    .error ("[" ++ rowId ++ "] " ++ fieldName ++ "=" ++ value ++ " must be YYYY-MM-DD.")
  | some (y, m, d) =>
    if y = 0 ∨ daysInMonth y m < d then
      .error ("[" ++ rowId ++ "] " ++ fieldName ++ "=" ++ value ++ " must be YYYY-MM-DD.")
    else if fieldName = "verified_date" ∧ dateNum today < dateNum (y, m, d) then
      .error ("[" ++ rowId ++ "] " ++ fieldName ++ "=" ++ v ++ " is in the future.")
    else pure v

/-- One typed note segment, the dict `{"type": ..., "text": ...}` produced
by `parse_notes`. -/
structure Note where
  type : String
  text : String
deriving Repr, DecidableEq

/-- `NOTE_PREFIXES`. -/
def NOTE_PREFIXES : List String := ["portal_note:", "conditional_note:"]

/-- The characters stripped from segment ends in `parse_notes`
(`" \t\r\n.;|"`). -/
def isNoteStripChar (c : Char) : Bool :=
  c = ' ' || c = '\t' || c = '\r' || c = '\n' || c = '.' || c = ';' || c = '|'

/-- The segment-emission loop of `parse_notes`: each match position gives a
segment running to the start of the next match (or the end of the text),
stripped of whitespace and `.;|`; empty segments are dropped. -/
def buildSegs (rawL : List Char) : List (Nat × String) → List Note
  | [] => []
  | (pos, pfx) :: rest =>
    let segStart := pos + pfx.length
    let segEnd := match rest with | [] => rawL.length | (p2, _) :: _ => p2
    let text := stripChars isNoteStripChar ((rawL.drop segStart).take (segEnd - segStart))
    let tail := buildSegs rawL rest
    if text = [] then tail
    else
      let noteType :=
        if startsWithChars "portal_note".data pfx.data then "portal_note"
        else "conditional_note"
      ⟨noteType, String.mk text⟩ :: tail

/-- The prefix-scanning loop of `parse_notes`: for each prefix token (in
`NOTE_PREFIXES` order), all its match positions in the lowercased text,
tagged with the token. -/
def notePositions (rawL : List Char) : List (Nat × String) :=
  NOTE_PREFIXES.foldl
    (fun acc p =>
      let pl := pyLower p
      acc ++ (findOccs (rawL.map Char.toLower) pl.data).map (fun i => (i, pl)))
    []

/-- `parse_notes`. -/
def parseNotes (notesCell : String) : List Note :=
  let raw := pyStrip notesCell
  if raw = "" then []
  else
    let positions := notePositions raw.data
    if positions = [] then [⟨"conditional_note", raw⟩]
    else buildSegs raw.data (sortLeB (fun a b => a.1 ≤ b.1) positions)

/-- Split a character list at every occurrence of `sep`, Python
`str.split(sep)` semantics (empty input gives one empty part). -/
def splitChar (sep : Char) : List Char → List (List Char)
  | [] => [[]]
  | c :: cs =>
    let r := splitChar sep cs
    if c = sep then [] :: r
    else
      match r with
      | [] => [[c]]
      | h :: t => (c :: h) :: t

/-- `parse_program_links`: comma- or pipe-separated keys, trimmed,
empties dropped, deduplicated and sorted. -/
def parseProgramLinks (cell : String) : List String :=
  let raw := pyStrip cell
  if raw = "" then []
  else
    let normalized := raw.data.map (fun c => if c = '|' then ',' else c)
    let parts := (splitChar ',' normalized).map (fun p => String.mk (stripChars isPySpace p))
    let out := parts.filter (fun p => p ≠ "")
    sortLeB pyStrLe out.dedup

/-- `REQUIRED_HEADERS` of the cards table. -/
def REQUIRED_HEADERS : List String :=
  ["card_key", "card_name", "issuer", "issuer_url", "verified_date",
   "dining_multiplier", "grocery_multiplier", "gas_multiplier",
   "travel_multiplier", "other_multiplier", "reward_currency", "notes"]

/-- `OPTIONAL_HEADERS` of the cards table. -/
def OPTIONAL_HEADERS : List String :=
  ["grocery_default", "grocery_online", "grocery_in_store",
   "travel_default", "travel_flight", "travel_hotel", "program_links"]

/-- `IGNORED_HEADERS`. -/
def IGNORED_HEADERS : List String :=
  ["ai_check_date (when verifier last checked this card)", "ai_status",
   "ai_confidence_overall"]

/-- `ALLOWED_REWARD_CURRENCY`. -/
def ALLOWED_REWARD_CURRENCY : List String := ["points", "miles", "cashback"]

/-- `validate_headers` (cards table): all required headers present after
removing ignored ones, and no header outside required ∪ optional. -/
def validateHeaders (headers : List String) : VResult Unit :=
  let effective := headers.filter (fun h => !(IGNORED_HEADERS.contains h))
  let missing := REQUIRED_HEADERS.filter (fun h => !(effective.contains h))
  if missing ≠ [] then .error "Missing required headers."
  else
    let allowed := REQUIRED_HEADERS ++ OPTIONAL_HEADERS
    let extra := effective.filter (fun h => !(allowed.contains h))
    if extra ≠ [] then .error "Unexpected extra headers."
    else pure ()

/-- `_validate_required_headers` (programs and program-quarters tables):
a missing header row or missing required headers fail; extra headers are
NOT checked. -/
def validateRequiredHeaders (fieldnames : Option (List String)) (required : List String)
    (label : String) : VResult (List String) :=
  match fieldnames with
  | none => .error (label ++ " CSV has no header row.")
  | some fns =>
    let headers := fns.map pyStrip
    let missing := required.filter (fun h => !(headers.contains h))
    if missing ≠ [] then .error (label ++ " missing required headers.")
    else pure headers

/-- `MultiplierValue`: a bare number, or a structured object modelled as
an association list in insertion order (`default` first, then sub-rates
sorted by name). -/
inductive MultiplierValue where
  | flat (q : ℚ)
  | structured (pairs : List (String × ℚ))
deriving Repr, DecidableEq

/-- One CSV row as `csv.DictReader` delivers it: cell text keyed by (raw)
field name. -/
abbrev Row := List (String × String)

/-- `row.get(k) or ""`: a missing column, a `None` cell or an empty cell
all give `""`. -/
def rowGet (r : Row) (k : String) : String :=
  match r.lookup k with
  | some v => v
  | none => ""

/-- One parsed table, the output of `csv.DictReader` on the fetched text:
the header row (absent when the CSV is empty) and the data rows. -/
structure Table where
  fieldnames : Option (List String)
  rows : List Row

/-- The per-sub-key loop of `build_subcategory_multiplier`: parse each
optional sub-rate in order, strip the category prefix from its name,
range-check it, and record it. -/
def collectSubVals (row : Row) (rowId : String) :
    List String → VResult (List (String × ℚ))
  | [] => pure []
  | sk :: rest => do
    let v? ← parseOptionalNumber (rowGet row sk)
    match v? with
    | none => collectSubVals row rowId rest
    | some v =>
      let subName :=
        if startsWithChars "grocery_".data sk.data then
          String.mk (sk.data.drop "grocery_".data.length)
        else if startsWithChars "travel_".data sk.data then
          String.mk (sk.data.drop "travel_".data.length)
        else sk
      if v < 0 ∨ v > 10 then
        .error ("[" ++ rowId ++ "] " ++ sk ++ " out of allowed range 0..10.")
      else do
        let tail ← collectSubVals row rowId rest
        return (subName, v) :: tail

/-- `build_subcategory_multiplier`.  When a sub-rate is present the
structured default is the explicit override if given, else the legacy flat
rate (the source's final `None` fallback to `1.0` is unreachable because
the legacy rate is mandatory); note that in this branch the override is
NOT range-checked.  With no sub-rate, a present override is range-checked
and wrapped; otherwise the legacy flat rate is returned bare. -/
def buildSubcategoryMultiplier (row : Row) (rowId legacyKey defaultKey : String)
    (subKeys : List String) : VResult MultiplierValue := do
  let legacyScalar ← parseNumber (rowGet row legacyKey) legacyKey rowId
  let defaultVal ← parseOptionalNumber (rowGet row defaultKey)
  let subVals ← collectSubVals row rowId subKeys
  if subVals ≠ [] then
    let resolvedDefault := match defaultVal with | some d => d | none => legacyScalar
    return .structured (("default", resolvedDefault) ::
      sortLeB (fun a b => pyStrLe a.1 b.1) subVals)
  else
    match defaultVal with
    | some dv =>
      if dv < 0 ∨ dv > 10 then
        .error ("[" ++ rowId ++ "] " ++ defaultKey ++ " out of allowed range 0..10.")
      else return .structured [("default", dv)]
    | none => return .flat legacyScalar

/-- One assembled `CardRow`. -/
structure CardRow where
  card_key : String
  card_name : String
  issuer : String
  issuer_url : String
  verified_date : String
  reward_currency : String
  multipliers : List (String × MultiplierValue)
  notes : List Note
  program_links : List String
deriving Repr, DecidableEq

/-- `_scalar_for_check`: the bare number, or the `default` field of a
structured value (0.0 when missing). -/
def scalarForCheck (v : MultiplierValue) : ℚ :=
  match v with
  | .structured pairs => (pairs.lookup "default").getD 0
  | .flat q => q

/-- Is every category's comparable scalar exactly zero?  (the `all(...)`
over `scalar_check` in `parse_cards`). -/
def allScalarsZero (ms : List (String × MultiplierValue)) : Bool :=
  ms.all (fun kv => scalarForCheck kv.2 == 0)

/-- Does some note segment have kind `conditional_note` and contain the
case-insensitive substring `no rewards`? -/
def hasNoRewardsNote (notes : List Note) : Bool :=
  notes.any (fun n =>
    n.type == "conditional_note" &&
    (findSubFrom (pyLower n.text).data "no rewards".data).isSome)

/-- The `row_id` string `parse_cards` builds for a row. -/
def cardsRowId (idx : Nat) (cardKey : String) : String :=
  "cards_row" ++ toString idx ++ ":" ++ (if cardKey = "" then "(missing card_key)" else cardKey)

/-- Everything the `parse_cards` row loop does for one row before the
all-zero invariant check, in source order: key blank/duplicate checks,
scalar field validation, the three flat multipliers, the two subcategory
multipliers, notes and program links. -/
def parseCardRowCore (today : Nat × Nat × Nat) (seenKeys : List String) (idx : Nat)
    (row : Row) : VResult CardRow := do
  let cardKey := pyStrip (rowGet row "card_key")
  let rowId := cardsRowId idx cardKey
  if cardKey = "" then .error ("[" ++ rowId ++ "] card_key is blank.")
  else if seenKeys.contains cardKey then
    .error ("[" ++ rowId ++ "] duplicate card_key " ++ cardKey ++ ".")
  else do
    let cardName := pyStrip (rowGet row "card_name")
    let issuer := pyStrip (rowGet row "issuer")
    let issuerUrl ← validateUrlHttps (rowGet row "issuer_url") "issuer_url" rowId
    let verifiedDate ← validateDateYyyyMmDd today (rowGet row "verified_date") "verified_date" rowId
    let rewardCurrency := pyLower (pyStrip (rowGet row "reward_currency"))
    if cardName = "" then .error ("[" ++ rowId ++ "] card_name is blank.")
    else if issuer = "" then .error ("[" ++ rowId ++ "] issuer is blank.")
    else if !(ALLOWED_REWARD_CURRENCY.contains rewardCurrency) then
      .error ("[" ++ rowId ++ "] reward_currency=" ++ rewardCurrency ++ " not allowed.")
    else do
      let dining ← parseNumber (rowGet row "dining_multiplier") "dining_multiplier" rowId
      let gas ← parseNumber (rowGet row "gas_multiplier") "gas_multiplier" rowId
      let other ← parseNumber (rowGet row "other_multiplier") "other_multiplier" rowId
      let grocery ← buildSubcategoryMultiplier row rowId "grocery_multiplier" "grocery_default"
        ["grocery_online", "grocery_in_store"]
      let travel ← buildSubcategoryMultiplier row rowId "travel_multiplier" "travel_default"
        ["travel_flight", "travel_hotel"]
      let multipliers : List (String × MultiplierValue) :=
        [("dining", .flat dining), ("grocery", grocery), ("gas", .flat gas),
         ("travel", travel), ("other", .flat other)]
      let notesList := parseNotes (rowGet row "notes")
      let programLinks := parseProgramLinks (rowGet row "program_links")
      return { card_key := cardKey, card_name := cardName, issuer := issuer,
               issuer_url := issuerUrl, verified_date := verifiedDate,
               reward_currency := rewardCurrency, multipliers := multipliers,
               notes := notesList, program_links := programLinks }

/-- One full row of the `parse_cards` loop: the core assembly followed by
the all-zero / `no rewards` invariant check. -/
def parseCardRow (today : Nat × Nat × Nat) (seenKeys : List String) (idx : Nat)
    (row : Row) : VResult CardRow := do
  let c ← parseCardRowCore today seenKeys idx row
  if allScalarsZero c.multipliers && !hasNoRewardsNote c.notes then
    .error ("[" ++ cardsRowId idx c.card_key ++
      "] all multipliers are 0 but notes does not clearly say No rewards.")
  else return c

/-- The row loop of `parse_cards`: rows processed in order from index 2,
threading the seen-key set. -/
def parseCardsRows (today : Nat × Nat × Nat) (idx : Nat) (seen : List String) :
    List Row → VResult (List CardRow)
  | [] => pure []
  | r :: rs => do
    let c ← parseCardRow today seen idx r
    let rest ← parseCardsRows today (idx + 1) (seen ++ [c.card_key]) rs
    return c :: rest

/-- `parse_cards`: header validation, the row loop, and the
zero-valid-rows rejection. -/
def parseCards (today : Nat × Nat × Nat) (t : Table) : VResult (List CardRow) :=
  match t.fieldnames with
  | none => .error "cards CSV has no header row."
  | some fns => do
    let headers := fns.map pyStrip
    let _ ← validateHeaders headers
    let cards ← parseCardsRows today 2 [] t.rows
    if cards = [] then .error "cards CSV contains zero card rows."
    else return cards

/-- `PROGRAMS_REQUIRED_HEADERS`. -/
def PROGRAMS_REQUIRED_HEADERS : List String :=
  ["program_key", "program_name", "issuer", "source_url", "requires_activation",
   "cap_amount", "cap_period", "base_rate", "bonus_rate", "notes", "status",
   "last_verified"]

/-- `PROGRAM_QUARTERS_REQUIRED_HEADERS`. -/
def PROGRAM_QUARTERS_REQUIRED_HEADERS : List String :=
  ["program_key", "start_date", "end_date", "category", "status", "last_verified"]

/-- The status values accepted by both the programs and program-quarters
assemblers: `{"verified", "draft", "deprecated", ""}`. -/
def PROGRAM_STATUS_SET : List String := ["verified", "draft", "deprecated", ""]

/-- One assembled program record.  Fields the source pops from the dict
when empty are modelled as `Option` with `none`. -/
structure ProgramRec where
  program_key : String
  program_name : String
  issuer : String
  source_url : String
  requires_activation : Bool
  cap_amount : Option Int
  cap_period : Option String
  base_rate : Int
  bonus_rate : Int
  notes : Option String
  status : String
  last_verified : Option String
deriving Repr, DecidableEq

/-- One row of the `parse_programs` loop, in source evaluation order:
key blank/duplicate checks, then the dict fields in literal order (each
validator may fail), then the blank-name/issuer and status-enumeration
checks, then the normalisation that drops empty optionals. -/
def parseProgramRow (seen : List String) (idx : Nat) (row : Row) : VResult ProgramRec := do
  let key := pyStrip (rowGet row "program_key")
  let rowId := "programs_row" ++ toString idx ++ ":" ++
    (if key = "" then "(missing program_key)" else key)
  if key = "" then .error ("[" ++ rowId ++ "] program_key is blank.")
  else if seen.contains key then
    .error ("[" ++ rowId ++ "] duplicate program_key " ++ key ++ ".")
  else do
    let programName := pyStrip (rowGet row "program_name")
    let issuer := pyStrip (rowGet row "issuer")
    let sourceUrl ← validateUrlHttps (rowGet row "source_url") "source_url" rowId
    let requiresActivation ← parseBoolTrueFalse (rowGet row "requires_activation")
      "requires_activation" rowId
    let capAmount ← parseOptionalInt (rowGet row "cap_amount")
    let capPeriod := pyLower (pyStrip (rowGet row "cap_period"))
    let baseRateQ ← parseNumber (rowGet row "base_rate") "base_rate" rowId
    let bonusRateQ ← parseNumber (rowGet row "bonus_rate") "bonus_rate" rowId
    let notes := pyStrip (rowGet row "notes")
    let status := pyLower (pyStrip (rowGet row "status"))
    let lastVerified := pyStrip (rowGet row "last_verified")
    if programName = "" then .error ("[" ++ rowId ++ "] program_name is blank.")
    else if issuer = "" then .error ("[" ++ rowId ++ "] issuer is blank.")
    else if !(PROGRAM_STATUS_SET.contains status) then
      .error ("[" ++ rowId ++ "] status=" ++ status ++ " invalid.")
    else
      return { program_key := key, program_name := programName, issuer := issuer,
               source_url := sourceUrl, requires_activation := requiresActivation,
               cap_amount := capAmount,
               cap_period := if capPeriod = "" then none else some capPeriod,
               base_rate := ratTruncToInt baseRateQ,
               bonus_rate := ratTruncToInt bonusRateQ,
               notes := if notes = "" then none else some notes,
               status := status,
               last_verified := if lastVerified = "" then none else some lastVerified }

/-- The row loop of `parse_programs`, threading the seen-key set. -/
def parseProgramsRows (idx : Nat) (seen : List String) :
    List Row → VResult (List ProgramRec)
  | [] => pure []
  | r :: rs => do
    let p ← parseProgramRow seen idx r
    let rest ← parseProgramsRows (idx + 1) (seen ++ [p.program_key]) rs
    return p :: rest

/-- `parse_programs`: required-header validation (extras are NOT
rejected), the row loop, and the final sort by `program_key`. -/
def parsePrograms (t : Table) : VResult (List ProgramRec) := do
  let _ ← validateRequiredHeaders t.fieldnames PROGRAMS_REQUIRED_HEADERS "programs"
  let out ← parseProgramsRows 2 [] t.rows
  return sortLeB (fun a b => pyStrLe a.program_key b.program_key) out

/-- One assembled program-quarter record. -/
structure QuarterRec where
  program_key : String
  start_date : String
  end_date : String
  category : String
  status : String
  last_verified : Option String
deriving Repr, DecidableEq

/-- One row of the `parse_program_quarters` loop, in source order: key
blank check, the two date validations, the string comparison
`end_date < start_date`, the category and status checks, and the optional
`last_verified`. -/
def parseQuarterRow (today : Nat × Nat × Nat) (idx : Nat) (row : Row) : VResult QuarterRec := do
  let key := pyStrip (rowGet row "program_key")
  let rowId := "program_quarters_row" ++ toString idx ++ ":" ++
    (if key = "" then "(missing program_key)" else key)
  if key = "" then .error ("[" ++ rowId ++ "] program_key is blank.")
  else do
    let startDate ← validateDateYyyyMmDd today (rowGet row "start_date") "start_date" rowId
    let endDate ← validateDateYyyyMmDd today (rowGet row "end_date") "end_date" rowId
    if pyStrLt endDate startDate then
      .error ("[" ++ rowId ++ "] end_date " ++ endDate ++ " is before start_date " ++
        startDate ++ ".")
    else
      let category := pyLower (pyStrip (rowGet row "category"))
      if category = "" then .error ("[" ++ rowId ++ "] category is blank.")
      else
        let status := pyLower (pyStrip (rowGet row "status"))
        if !(PROGRAM_STATUS_SET.contains status) then
          .error ("[" ++ rowId ++ "] status=" ++ status ++ " invalid.")
        else
          let lastVerified := pyStrip (rowGet row "last_verified")
          return { program_key := key, start_date := startDate, end_date := endDate,
                   category := category, status := status,
                   last_verified := if lastVerified = "" then none else some lastVerified }

/-- The row loop of `parse_program_quarters` (keys need not be unique). -/
def parseQuartersRows (today : Nat × Nat × Nat) (idx : Nat) :
    List Row → VResult (List QuarterRec)
  | [] => pure []
  | r :: rs => do
    let q ← parseQuarterRow today idx r
    let rest ← parseQuartersRows today (idx + 1) rs
    return q :: rest

/-- The sort key order of `parse_program_quarters`:
`(program_key, start_date, category)` under Python string comparison. -/
def quarterLe (a b : QuarterRec) : Bool :=
  match strCmp a.program_key.data b.program_key.data with
  | .lt => true
  | .gt => false
  | .eq =>
    match strCmp a.start_date.data b.start_date.data with
    | .lt => true
    | .gt => false
    | .eq => pyStrLe a.category b.category

/-- `parse_program_quarters`. -/
def parseProgramQuarters (today : Nat × Nat × Nat) (t : Table) : VResult (List QuarterRec) := do
  let _ ← validateRequiredHeaders t.fieldnames PROGRAM_QUARTERS_REQUIRED_HEADERS
    "program_quarters"
  let out ← parseQuartersRows today 2 t.rows
  return sortLeB quarterLe out

/-- `SCHEMA_VERSION`. -/
def SCHEMA_VERSION : Nat := 2

/-- Truncation to 32 bits. -/
def w32 (x : Nat) : Nat := x % 4294967296

/-- 32-bit right rotation. -/
def rotr32 (n x : Nat) : Nat := w32 ((x >>> n) ||| (x <<< (32 - n)))

/-- Modelled from the spec: `hashlib.sha256`, per FIPS 180-4.  The 64
round constants (the fractional parts of the cube roots of the first 64
primes), written in decimal. -/
def K256 : List Nat :=
  [1116352408, 1899447441, 3049323471, 3921009573, 961987163,
   1508970993, 2453635748, 2870763221, 3624381080, 310598401,
   607225278, 1426881987, 1925078388, 2162078206, 2614888103,
   3248222580, 3835390401, 4022224774, 264347078, 604807628,
   770255983, 1249150122, 1555081692, 1996064986, 2554220882,
   2821834349, 2952996808, 3210313671, 3336571891, 3584528711,
   113926993, 338241895, 666307205, 773529912, 1294757372,
   1396182291, 1695183700, 1986661051, 2177026350, 2456956037,
   2730485921, 2820302411, 3259730800, 3345764771, 3516065817,
   3600352804, 4094571909, 275423344, 430227734, 506948616,
   659060556, 883997877, 958139571, 1322822218, 1537002063,
   1747873779, 1955562222, 2024104815, 2227730452, 2361852424,
   2428436474, 2756734187, 3204031479, 3329325298]

/-- SHA-256 initial hash state (fractional parts of the square roots of
the first 8 primes), in decimal. -/
def H256init : List Nat :=
  [1779033703, 3144134277, 1013904242, 2773480762,
   1359893119, 2600822924, 528734635, 1541459225]

/-- Big-endian byte rendering of `n` on `len` bytes. -/
def toBytesBE (n len : Nat) : List Nat :=
  (List.range len).map (fun i => (n >>> (8 * (len - 1 - i))) % 256)

/-- SHA-256 message padding: `0x80`, zeros, 64-bit big-endian bit length. -/
def sha256Pad (msg : List Nat) : List Nat :=
  let L := msg.length
  let k := (64 - ((L + 9) % 64)) % 64
  msg ++ [0x80] ++ List.replicate k 0 ++ toBytesBE (L * 8) 8

/-- Split a byte list into 64-byte blocks; `fuel` bounds the number of
blocks (each step consumes at least one byte, so `l.length` suffices). -/
def chunks64Aux : Nat → List Nat → List (List Nat)
  | 0, _ => []
  | _, [] => []
  | fuel + 1, x :: xs => ((x :: xs).take 64) :: chunks64Aux fuel ((x :: xs).drop 64)

/-- Split a byte list into 64-byte blocks. -/
def chunks64 (l : List Nat) : List (List Nat) :=
  chunks64Aux l.length l

/-- Big-endian 32-bit words from bytes. -/
def bytesToWords : List Nat → List Nat
  | a :: b :: c :: d :: rest => (((a * 256 + b) * 256 + c) * 256 + d) :: bytesToWords rest
  | _ => []

/-- σ₀ of the SHA-256 message schedule. -/
def smallSigma0 (x : Nat) : Nat := rotr32 7 x ^^^ rotr32 18 x ^^^ (x >>> 3)

/-- σ₁ of the SHA-256 message schedule. -/
def smallSigma1 (x : Nat) : Nat := rotr32 17 x ^^^ rotr32 19 x ^^^ (x >>> 10)

/-- Σ₀ of the SHA-256 compression function. -/
def bigSigma0 (x : Nat) : Nat := rotr32 2 x ^^^ rotr32 13 x ^^^ rotr32 22 x

/-- Σ₁ of the SHA-256 compression function. -/
def bigSigma1 (x : Nat) : Nat := rotr32 6 x ^^^ rotr32 11 x ^^^ rotr32 25 x

/-- Extend the 16 block words to the 64-word schedule. -/
def buildSchedule (w16 : List Nat) : List Nat :=
  (List.range 48).foldl
    (fun w _ =>
      let n := w.length
      w ++ [w32 (smallSigma1 (w.getD (n - 2) 0) + w.getD (n - 7) 0 +
                 smallSigma0 (w.getD (n - 15) 0) + w.getD (n - 16) 0)])
    w16

/-- One SHA-256 round on the 8-word working state. -/
def compressStep (st : List Nat) (kw : Nat × Nat) : List Nat :=
  match st with
  | [a, b, c, d, e, f, g, h] =>
    let ch := (e &&& f) ^^^ ((e ^^^ 0xffffffff) &&& g)
    let t1 := w32 (h + bigSigma1 e + ch + kw.1 + kw.2)
    let maj := (a &&& b) ^^^ (a &&& c) ^^^ (b &&& c)
    let t2 := w32 (bigSigma0 a + maj)
    [w32 (t1 + t2), a, b, c, w32 (d + t1), e, f, g]
  | _ => st

/-- Compress one 64-byte block into the hash state. -/
def compressBlock (h : List Nat) (block : List Nat) : List Nat :=
  let w := buildSchedule (bytesToWords block)
  let st := (K256.zip w).foldl compressStep h
  (h.zip st).map (fun p => w32 (p.1 + p.2))

/-- SHA-256 of a byte list, as 8 words. -/
def sha256Words (msg : List Nat) : List Nat :=
  (chunks64 (sha256Pad msg)).foldl compressBlock H256init

/-- Lowercase hex digit. -/
def hexDigitChar (n : Nat) : Char :=
  if n < 10 then Char.ofNat ('0'.toNat + n) else Char.ofNat ('a'.toNat + n - 10)

/-- 8-hex-character rendering of a 32-bit word. -/
def wordToHex (x : Nat) : List Char :=
  (List.range 8).map (fun i => hexDigitChar ((x >>> (4 * (7 - i))) % 16))

/-- `hashlib.sha256(...).hexdigest()`. -/
def sha256Hex (msg : List Nat) : String :=
  String.mk ((sha256Words msg).foldl (fun acc wrd => acc ++ wordToHex wrd) [])

/-- `compute_sha256_files`: stream every file's bytes through one hash,
with a single `\n` byte appended after each file. -/
def computeSha256Files (files : List (List Nat)) : String :=
  sha256Hex (files.foldl (fun acc f => acc ++ f ++ [10]) [])

/-- The version string of `main`: `"sha256:" + digest[:12]`. -/
def bundleVersionOf (files : List (List Nat)) : String :=
  "sha256:" ++ String.mk ((computeSha256Files files).data.take 12)

/-- JSON values, for the pre-existing version-marker document read by
`_read_json_if_exists`. -/
inductive Json where
  | null
  | bool (b : Bool)
  | num (q : ℚ)
  | str (s : String)
  | arr (xs : List Json)
  | obj (kvs : List (String × Json))

/-- `existing.get("version") if isinstance(existing, dict) else None`. -/
def existingVersionOf (existing : Option Json) : Option Json :=
  match existing with
  | some (Json.obj kvs) => kvs.lookup "version"
  | _ => none

/-- Python `existing_version == version` where `version` is a string:
true exactly for an equal string value. -/
def isVersionMatch (ev : Option Json) (v : String) : Bool :=
  match ev with
  | some (Json.str s) => s = v
  | _ => false

/-- The version-marker document `main` writes. -/
structure VersionMarker where
  schema_version : Nat
  version : String
  generated_at : String
  cards_count : Nat
  programs_count : Nat
  program_quarters_count : Nat
  bundle_files : List String
deriving Repr, DecidableEq

/-- The fate of `cards_version.json` in one run. -/
inductive MarkerOutcome where
  | unchanged
  | written (m : VersionMarker)
deriving Repr, DecidableEq

/-- Step 4 of `main`: compute the bundle digest and version, read any
pre-existing marker (`existing` is what `_read_json_if_exists` returned:
`none` for a missing file or unparseable JSON), and either leave the
marker untouched or write a fresh one. -/
def versionMarkerStep (existing : Option Json) (bundleFiles : List (List Nat))
    (bundleNames : List String) (generatedAt : String)
    (cardsCount programsCount programQuartersCount : Nat) : MarkerOutcome :=
  let version := bundleVersionOf bundleFiles
  if isVersionMatch (existingVersionOf existing) version then .unchanged
  else
    .written { schema_version := SCHEMA_VERSION, version := version,
               generated_at := generatedAt, cards_count := cardsCount,
               programs_count := programsCount,
               program_quarters_count := programQuartersCount,
               bundle_files := bundleNames }

/-! ## Helper lemmas -/

/-- `bind` on a successful `Except` computation applies the continuation. -/
theorem bindOk {α β : Type} (a : α) (f : α → VResult β) :
    (Except.ok a >>= f : VResult β) = f a := rfl

/-- `bind` on a failed `Except` computation propagates the error. -/
theorem bindError {α β : Type} (e : String) (f : α → VResult β) :
    (Except.error e >>= f : VResult β) = Except.error e := rfl

/-! ## Concrete inputs used by witnesses and counterexamples -/

/-- A card row whose five multipliers are all zero, annotated with a
conditional note that says the card earns no rewards. -/
def zeroCardRow : Row :=
  [("card_key", "k1"), ("card_name", "Card"), ("issuer", "Bank"),
   ("issuer_url", "https://x.com"), ("verified_date", "2024-01-01"),
   ("dining_multiplier", "0"), ("grocery_multiplier", "0"),
   ("gas_multiplier", "0"), ("travel_multiplier", "0"),
   ("other_multiplier", "0"), ("reward_currency", "points"),
   ("notes", "conditional_note: No Rewards on this card")]

/-- The record `parse_cards` assembles from `zeroCardRow`. -/
def zeroCardParsed : CardRow :=
  { card_key := "k1", card_name := "Card", issuer := "Bank",
    issuer_url := "https://x.com", verified_date := "2024-01-01",
    reward_currency := "points",
    multipliers := [("dining", .flat 0), ("grocery", .flat 0), ("gas", .flat 0),
                    ("travel", .flat 0), ("other", .flat 0)],
    notes := [⟨"conditional_note", "No Rewards on this card"⟩],
    program_links := [] }

/-- A grocery-column row with legacy rate 1 and online sub-rate 4. -/
def groceryProbeRow : Row :=
  [("grocery_multiplier", "1"), ("grocery_online", "4")]

/-! ## C3 -/

/-- C3: a card row all of whose comparable multiplier scalars are zero
passes the final invariant check of `parse_cards` exactly when some
conditional-kind note segment contains the case-insensitive substring
`no rewards`; rows with a nonzero scalar always pass it.  Stated for any
row whose preceding validations succeed (`parseCardRowCore = ok c`). -/
theorem zeroMultipliersNoRewardsInvariant :
    ∀ (today : Nat × Nat × Nat) (seen : List String) (idx : Nat) (row : Row) (c : CardRow),
      parseCardRowCore today seen idx row = .ok c →
      (parseCardRow today seen idx row = .ok c ↔
        (allScalarsZero c.multipliers = true → hasNoRewardsNote c.notes = true)) := by
  intro today seen idx row c h
  have hrow : parseCardRow today seen idx row =
      (if allScalarsZero c.multipliers && !hasNoRewardsNote c.notes then
        Except.error ("[" ++ cardsRowId idx c.card_key ++
          "] all multipliers are 0 but notes does not clearly say No rewards.")
      else Except.ok c) := by
    unfold parseCardRow
    rw [h, bindOk]
    rfl
  rw [hrow]
  by_cases hz : allScalarsZero c.multipliers
  · by_cases hn : hasNoRewardsNote c.notes
    · simp [hz, hn]
    · simp [hz, hn]
  · simp [hz]

/-- C3, witness: the invariant theorem applied to a concrete all-zero row
carrying a `no rewards` conditional note. -/
theorem zeroMultipliersNoRewardsInvariantWitness :
    parseCardRowCore (2025, 6, 1) [] 2 zeroCardRow = .ok zeroCardParsed ∧
    (parseCardRow (2025, 6, 1) [] 2 zeroCardRow = .ok zeroCardParsed ↔
      (allScalarsZero zeroCardParsed.multipliers = true →
        hasNoRewardsNote zeroCardParsed.notes = true)) :=
  ⟨by decide, zeroMultipliersNoRewardsInvariant (2025, 6, 1) [] 2 zeroCardRow zeroCardParsed
    (by decide)⟩

/-! ## C4 -/

/-- C4: multiplier resolution.  Legacy flat rate 3 alone gives the bare
number `3`; legacy 1 with `grocery_online=4` gives
`{default: 1, online: 4}`; default override 2 with no sub-rates gives
`{default: 2}`; and in general, when at least one sub-rate is present, the
structured default is the explicit override if given and otherwise the
legacy flat rate, with the sub-rates appended under their prefix-stripped
names in sorted order. -/
theorem multiplierResolutionSpec :
    (buildSubcategoryMultiplier [("grocery_multiplier", "3")] "r" "grocery_multiplier"
        "grocery_default" ["grocery_online", "grocery_in_store"] = .ok (.flat 3)) ∧
    (buildSubcategoryMultiplier groceryProbeRow "r" "grocery_multiplier"
        "grocery_default" ["grocery_online", "grocery_in_store"] =
      .ok (.structured [("default", 1), ("online", 4)])) ∧
    (buildSubcategoryMultiplier [("grocery_multiplier", "1"), ("grocery_default", "2")] "r"
        "grocery_multiplier" "grocery_default" ["grocery_online", "grocery_in_store"] =
      .ok (.structured [("default", 2)])) ∧
    (∀ (row : Row) (rowId lk dk : String) (sks : List String) (legacy : ℚ)
        (dv : Option ℚ) (subs : List (String × ℚ)),
      parseNumber (rowGet row lk) lk rowId = .ok legacy →
      parseOptionalNumber (rowGet row dk) = .ok dv →
      collectSubVals row rowId sks = .ok subs →
      subs ≠ [] →
      buildSubcategoryMultiplier row rowId lk dk sks =
        .ok (.structured (("default", dv.getD legacy) ::
          sortLeB (fun a b => pyStrLe a.1 b.1) subs))) := by
  refine ⟨by decide, by decide, by decide, ?_⟩
  intro row rowId lk dk sks legacy dv subs h1 h2 h3 hne
  unfold buildSubcategoryMultiplier
  rw [h1, bindOk, h2, bindOk, h3, bindOk]
  rw [if_pos hne]
  cases dv <;> rfl

/-- C4, witness: the general sub-rate-present clause applied to the
concrete grocery row with legacy rate 1 and `grocery_online=4`. -/
theorem multiplierResolutionSpecWitness :
    parseNumber (rowGet groceryProbeRow "grocery_multiplier") "grocery_multiplier" "r" =
      .ok 1 ∧
    parseOptionalNumber (rowGet groceryProbeRow "grocery_default") = .ok none ∧
    collectSubVals groceryProbeRow "r" ["grocery_online", "grocery_in_store"] =
      .ok [("online", 4)] ∧
    buildSubcategoryMultiplier groceryProbeRow "r" "grocery_multiplier" "grocery_default"
        ["grocery_online", "grocery_in_store"] =
      .ok (.structured (("default", (none : Option ℚ).getD 1) ::
        sortLeB (fun a b => pyStrLe a.1 b.1) [("online", 4)])) :=
  ⟨by decide, by decide, by decide,
    multiplierResolutionSpec.2.2.2 groceryProbeRow "r" "grocery_multiplier" "grocery_default"
      ["grocery_online", "grocery_in_store"] 1 none [("online", 4)]
      (by decide) (by decide) (by decide) (by decide)⟩

/-! ## C5 -/

/-- C5, counterexample: with a sub-rate present, an out-of-range default
override (99, far outside `[0,10]`) is accepted rather than failing the
row: it becomes the structured `default` verbatim. -/
theorem defaultOverrideRangeUnchecked :
    buildSubcategoryMultiplier
      [("grocery_multiplier", "1"), ("grocery_default", "99"), ("grocery_online", "4")]
      "r" "grocery_multiplier" "grocery_default" ["grocery_online", "grocery_in_store"] =
    .ok (.structured [("default", 99), ("online", 4)]) := by decide

/-- C5, amended: every present named sub-rate must independently lie in
`[0,10]` (on success every collected sub-rate is in range), and the
default override is range-checked only when no sub-rate is present (then
an out-of-range override fails the row). -/
theorem optionalRateRangeRule :
    (∀ (row : Row) (rowId : String) (sks : List String) (subs : List (String × ℚ)),
      collectSubVals row rowId sks = .ok subs →
      ∀ p ∈ subs, 0 ≤ p.2 ∧ p.2 ≤ 10) ∧
    (∀ (row : Row) (rowId lk dk : String) (sks : List String) (legacy dv : ℚ),
      parseNumber (rowGet row lk) lk rowId = .ok legacy →
      parseOptionalNumber (rowGet row dk) = .ok (some dv) →
      collectSubVals row rowId sks = .ok [] →
      (dv < 0 ∨ dv > 10) →
      buildSubcategoryMultiplier row rowId lk dk sks =
        .error ("[" ++ rowId ++ "] " ++ dk ++ " out of allowed range 0..10.")) := by
  constructor
  · intro row rowId sks
    induction sks with
    | nil =>
      intro subs h p hp
      simp only [collectSubVals, pure, Except.pure, Except.ok.injEq] at h
      subst h
      cases hp
    | cons sk rest ih =>
      intro subs h p hp
      rw [collectSubVals] at h
      cases hv : parseOptionalNumber (rowGet row sk) with
      | error e => rw [hv, bindError] at h; cases h
      | ok v? =>
        rw [hv, bindOk] at h
        cases v? with
        | none => exact ih subs h p hp
        | some v =>
          dsimp only at h
          by_cases hr : v < 0 ∨ v > 10
          · rw [if_pos hr] at h; cases h
          · rw [if_neg hr] at h
            cases hrec : collectSubVals row rowId rest with
            | error e => rw [hrec, bindError] at h; cases h
            | ok tail =>
              rw [hrec, bindOk] at h
              simp only [pure, Except.pure, Except.ok.injEq] at h
              rw [← h] at hp
              rcases List.mem_cons.mp hp with hhd | htl
              · rw [hhd]
                push_neg at hr
                exact hr
              · exact ih tail hrec p htl
  · intro row rowId lk dk sks legacy dv h1 h2 h3 hr
    unfold buildSubcategoryMultiplier
    rw [h1, bindOk, h2, bindOk, h3, bindOk]
    rw [if_neg (by simp)]
    dsimp only
    rw [if_pos hr]

/-- C5, witness: the range rule applied to a concrete collected sub-rate
list and to a concrete sub-rate-free row with default override 99. -/
theorem optionalRateRangeRuleWitness :
    (0 ≤ (4 : ℚ) ∧ (4 : ℚ) ≤ 10) ∧
    buildSubcategoryMultiplier [("grocery_multiplier", "1"), ("grocery_default", "99")]
        "r" "grocery_multiplier" "grocery_default" ["grocery_online", "grocery_in_store"] =
      .error "[r] grocery_default out of allowed range 0..10." :=
  ⟨optionalRateRangeRule.1 groceryProbeRow "r" ["grocery_online", "grocery_in_store"]
      [("online", 4)] (by decide) ("online", 4) (by decide),
    optionalRateRangeRule.2 [("grocery_multiplier", "1"), ("grocery_default", "99")]
      "r" "grocery_multiplier" "grocery_default" ["grocery_online", "grocery_in_store"]
      1 99 (by decide) (by decide) (by decide) (by decide)⟩

/-! ## C6 -/

/-- C6: note segmentation.  The two-prefix example splits into a portal
segment `5% back` followed by a conditional segment `first year only`;
non-blank input containing no prefix token yields exactly one conditional
segment holding the whole trimmed text; blank input yields no segments. -/
theorem noteSegmentationSpec :
    (parseNotes "portal_note: 5% back. conditional_note: first year only" =
      [⟨"portal_note", "5% back"⟩, ⟨"conditional_note", "first year only"⟩]) ∧
    (∀ s : String, pyStrip s ≠ "" → notePositions (pyStrip s).data = [] →
      parseNotes s = [⟨"conditional_note", pyStrip s⟩]) ∧
    (∀ s : String, pyStrip s = "" → parseNotes s = []) := by
  refine ⟨by decide, ?_, ?_⟩
  · intro s hne hpos
    have hdef : parseNotes s =
        (if pyStrip s = "" then [] else
          if notePositions (pyStrip s).data = [] then
            [⟨"conditional_note", pyStrip s⟩]
          else
            buildSegs (pyStrip s).data
              (sortLeB (fun a b => a.1 ≤ b.1) (notePositions (pyStrip s).data))) := rfl
    rw [hdef, if_neg hne, if_pos hpos]
  · intro s he
    have hdef : parseNotes s =
        (if pyStrip s = "" then [] else
          if notePositions (pyStrip s).data = [] then
            [⟨"conditional_note", pyStrip s⟩]
          else
            buildSegs (pyStrip s).data
              (sortLeB (fun a b => a.1 ≤ b.1) (notePositions (pyStrip s).data))) := rfl
    rw [hdef, if_pos he]

/-- C6, witness: the no-prefix and blank clauses applied to concrete
cells. -/
theorem noteSegmentationSpecWitness :
    parseNotes "  just some text  " = [⟨"conditional_note", "just some text"⟩] ∧
    parseNotes "   " = [] :=
  ⟨noteSegmentationSpec.2.1 "  just some text  " (by decide) (by decide),
    noteSegmentationSpec.2.2 "   " (by decide)⟩

/-! ## C10 -/

/-- C10: when `_read_json_if_exists` reports no usable marker (`none`,
covering both a missing file and unparseable JSON, which the source maps
to `None` alike), or the marker is JSON without a usable `version` string
(a non-dict document or a dict with no `version` key), the run still
completes and a fresh marker document is written with the freshly computed
version. -/
theorem missingMarkerFreshWrite :
    ∀ (files : List (List Nat)) (names : List String) (t : String) (c p q : Nat),
      (versionMarkerStep none files names t c p q =
        .written { schema_version := SCHEMA_VERSION, version := bundleVersionOf files,
                   generated_at := t, cards_count := c, programs_count := p,
                   program_quarters_count := q, bundle_files := names }) ∧
      (∀ j : Json, existingVersionOf (some j) = none →
        versionMarkerStep (some j) files names t c p q =
          .written { schema_version := SCHEMA_VERSION, version := bundleVersionOf files,
                     generated_at := t, cards_count := c, programs_count := p,
                     program_quarters_count := q, bundle_files := names }) := by
  intro files names t c p q
  constructor
  · rfl
  · intro j hj
    unfold versionMarkerStep
    rw [hj]
    rfl

/-- C10, witness: a dict marker with no `version` key triggers a fresh
write. -/
theorem missingMarkerFreshWriteWitness :
    versionMarkerStep (some (Json.obj [("cards_count", Json.num 3)])) [[65]]
        ["cards.json"] "2025-01-01T00:00:00Z" 1 0 0 =
      .written { schema_version := SCHEMA_VERSION, version := bundleVersionOf [[65]],
                 generated_at := "2025-01-01T00:00:00Z", cards_count := 1,
                 programs_count := 0, program_quarters_count := 0,
                 bundle_files := ["cards.json"] } :=
  (missingMarkerFreshWrite [[65]] ["cards.json"] "2025-01-01T00:00:00Z" 1 0 0).2
    (Json.obj [("cards_count", Json.num 3)]) rfl

/-! ## C2 -/

/-- A fully valid programs-table row. -/
def validProgramRow : Row :=
  [("program_key", "p1"), ("program_name", "Prog"), ("issuer", "Bank"),
   ("source_url", "https://x.com"), ("requires_activation", "yes"),
   ("cap_amount", "1500"), ("cap_period", "Quarter"), ("base_rate", "1"),
   ("bonus_rate", "5"), ("notes", "rotating"), ("status", "Verified"),
   ("last_verified", "2024-01-01")]

/-- The record `parse_programs` assembles from `validProgramRow`. -/
def validProgramParsed : ProgramRec :=
  { program_key := "p1", program_name := "Prog", issuer := "Bank",
    source_url := "https://x.com", requires_activation := true,
    cap_amount := some 1500, cap_period := some "quarter", base_rate := 1,
    bonus_rate := 5, notes := some "rotating", status := "verified",
    last_verified := some "2024-01-01" }

/-- A fully valid program-quarters row. -/
def validQuarterRow : Row :=
  [("program_key", "p1"), ("start_date", "2024-01-01"), ("end_date", "2024-03-31"),
   ("category", "Gas"), ("status", ""), ("last_verified", "")]

/-- The record `parse_program_quarters` assembles from `validQuarterRow`. -/
def validQuarterParsed : QuarterRec :=
  { program_key := "p1", start_date := "2024-01-01", end_date := "2024-03-31",
    category := "gas", status := "", last_verified := none }

/-- C2, counterexample: the programs and program-quarters tables accept a
header (`unexpected_extra`) outside their required set — header validation
and the whole table parse succeed — so the closed-world header rule does
not hold for every table. -/
theorem programsExtraHeaderAccepted :
    validateRequiredHeaders (some (PROGRAMS_REQUIRED_HEADERS ++ ["unexpected_extra"]))
        PROGRAMS_REQUIRED_HEADERS "programs" =
      .ok (PROGRAMS_REQUIRED_HEADERS ++ ["unexpected_extra"]) ∧
    parsePrograms { fieldnames := some (PROGRAMS_REQUIRED_HEADERS ++ ["unexpected_extra"]),
                    rows := [validProgramRow] } = .ok [validProgramParsed] ∧
    parseProgramQuarters (2025, 1, 1)
        { fieldnames := some (PROGRAM_QUARTERS_REQUIRED_HEADERS ++ ["unexpected_extra"]),
          rows := [validQuarterRow] } = .ok [validQuarterParsed] :=
  ⟨by decide, by decide, by decide⟩

/-- C2, amended: only the cards table is closed-world — any non-ignored
header outside required ∪ optional fails `validate_headers`, whether or
not required headers are all present — while the programs and
program-quarters tables check only that their required headers are
present and accept unrecognized extras. -/
theorem headerClosedWorldCardsOnly :
    (∀ (headers : List String) (extra : String), extra ∈ headers →
      IGNORED_HEADERS.contains extra = false →
      (REQUIRED_HEADERS ++ OPTIONAL_HEADERS).contains extra = false →
      ∃ e, validateHeaders headers = .error e) ∧
    (∀ (fns required : List String) (label : String),
      (∀ h ∈ required, (fns.map pyStrip).contains h = true) →
      validateRequiredHeaders (some fns) required label = .ok (fns.map pyStrip)) := by
  constructor
  · intro headers extra hmem hig hallow
    unfold validateHeaders
    dsimp only
    split_ifs with h1 h2
    · exact ⟨_, rfl⟩
    · exact ⟨_, rfl⟩
    · exfalso
      apply h2
      apply List.ne_nil_of_mem (a := extra)
      refine List.mem_filter.mpr ⟨List.mem_filter.mpr ⟨hmem, ?_⟩, ?_⟩
      · rw [hig]; rfl
      · rw [hallow]; rfl
  · intro fns required label hall
    unfold validateRequiredHeaders
    dsimp only
    have hmiss : required.filter (fun h => !((fns.map pyStrip).contains h)) = [] := by
      rw [List.filter_eq_nil_iff]
      intro a ha
      rw [hall a ha]
      decide
    rw [hmiss]
    rw [if_neg (by simp)]
    rfl

/-- C2, witness: the amended header rule applied to the cards header list
with an extra `bogus` column and to the programs header list with the
same extra. -/
theorem headerClosedWorldCardsOnlyWitness :
    (∃ e, validateHeaders (REQUIRED_HEADERS ++ ["bogus"]) = .error e) ∧
    validateRequiredHeaders (some (PROGRAMS_REQUIRED_HEADERS ++ ["bogus"]))
        PROGRAMS_REQUIRED_HEADERS "programs" =
      .ok ((PROGRAMS_REQUIRED_HEADERS ++ ["bogus"]).map pyStrip) :=
  ⟨headerClosedWorldCardsOnly.1 (REQUIRED_HEADERS ++ ["bogus"]) "bogus"
      (by decide) (by decide) (by decide),
    headerClosedWorldCardsOnly.2 (PROGRAMS_REQUIRED_HEADERS ++ ["bogus"])
      PROGRAMS_REQUIRED_HEADERS "programs" (by decide)⟩

/-! ## C8 -/

/-- An otherwise-valid programs row whose status cell is a parameter. -/
def statusProbeRow (status : String) : Row :=
  [("program_key", "p1"), ("program_name", "Prog"), ("issuer", "Bank"),
   ("source_url", "https://x.com"), ("requires_activation", "true"),
   ("cap_amount", ""), ("cap_period", ""), ("base_rate", "1"),
   ("bonus_rate", "5"), ("notes", ""), ("status", status), ("last_verified", "")]

/-- An otherwise-valid program-quarters row whose status cell is a
parameter. -/
def quarterStatusProbeRow (status : String) : Row :=
  [("program_key", "p1"), ("start_date", "2024-01-01"), ("end_date", "2024-03-31"),
   ("category", "gas"), ("status", status), ("last_verified", "")]

/-- C8, counterexample: a row whose status cell is the literal token
`unset` is rejected by both assemblers (the accepted set is
`{verified, draft, deprecated, ""}` — the empty string, not the token
`unset`). -/
theorem statusUnsetRejected :
    parseProgramRow [] 2 (statusProbeRow "unset") =
      .error "[programs_row2:p1] status=unset invalid." ∧
    parseQuarterRow (2025, 1, 1) 2 (quarterStatusProbeRow "unset") =
      .error "[program_quarters_row2:p1] status=unset invalid." :=
  ⟨by decide, by decide⟩

/-- C8, amended: for both programs and program-quarters rows, the status
field passes validation exactly when its trimmed lowercased value is one
of `verified`, `draft`, `deprecated` or the EMPTY string (the spec's
"unset" names the empty value; the literal token `unset` fails). -/
theorem statusEnumerationRule :
    ∀ status : String,
      (parseProgramRow [] 2 (statusProbeRow status) =
        (if PROGRAM_STATUS_SET.contains (pyLower (pyStrip status)) then
          .ok { program_key := "p1", program_name := "Prog", issuer := "Bank",
                source_url := "https://x.com", requires_activation := true,
                cap_amount := none, cap_period := none, base_rate := 1, bonus_rate := 5,
                notes := none, status := pyLower (pyStrip status), last_verified := none }
        else
          .error ("[programs_row2:p1] status=" ++ pyLower (pyStrip status) ++ " invalid."))) ∧
      (parseQuarterRow (2025, 1, 1) 2 (quarterStatusProbeRow status) =
        (if PROGRAM_STATUS_SET.contains (pyLower (pyStrip status)) then
          .ok { program_key := "p1", start_date := "2024-01-01", end_date := "2024-03-31",
                category := "gas", status := pyLower (pyStrip status), last_verified := none }
        else
          .error ("[program_quarters_row2:p1] status=" ++ pyLower (pyStrip status) ++
            " invalid."))) := by
  intro status
  constructor
  · have key : parseProgramRow [] 2 (statusProbeRow status) =
        (if !(PROGRAM_STATUS_SET.contains (pyLower (pyStrip status))) then
          .error ("[programs_row2:p1] status=" ++ pyLower (pyStrip status) ++ " invalid.")
        else
          .ok { program_key := "p1", program_name := "Prog", issuer := "Bank",
                source_url := "https://x.com", requires_activation := true,
                cap_amount := none, cap_period := none, base_rate := 1, bonus_rate := 5,
                notes := none, status := pyLower (pyStrip status),
                last_verified := none }) := rfl
    rw [key]
    cases hcb : PROGRAM_STATUS_SET.contains (pyLower (pyStrip status)) <;> simp
  · have key : parseQuarterRow (2025, 1, 1) 2 (quarterStatusProbeRow status) =
        (if !(PROGRAM_STATUS_SET.contains (pyLower (pyStrip status))) then
          .error ("[program_quarters_row2:p1] status=" ++ pyLower (pyStrip status) ++
            " invalid.")
        else
          .ok { program_key := "p1", start_date := "2024-01-01",
                end_date := "2024-03-31", category := "gas",
                status := pyLower (pyStrip status), last_verified := none }) := rfl
    rw [key]
    cases hcb : PROGRAM_STATUS_SET.contains (pyLower (pyStrip status)) <;> simp

/-! ## C9 -/

/-- An otherwise-valid programs row whose cap_amount cell is a
parameter. -/
def capProbeRow (cap : String) : Row :=
  [("program_key", "p1"), ("program_name", "Prog"), ("issuer", "Bank"),
   ("source_url", "https://x.com"), ("requires_activation", "true"),
   ("cap_amount", cap), ("cap_period", ""), ("base_rate", "1"),
   ("bonus_rate", "5"), ("notes", ""), ("status", "verified"), ("last_verified", "")]

/-- C9, counterexample: a negative cap_amount (`-5`) does NOT fail
validation — the row is accepted and the assembled record carries
`cap_amount = -5 < 0`. -/
theorem negativeCapAmountAccepted :
    parseProgramRow [] 2 (capProbeRow "-5") =
      .ok { program_key := "p1", program_name := "Prog", issuer := "Bank",
            source_url := "https://x.com", requires_activation := true,
            cap_amount := some (-5), cap_period := none, base_rate := 1, bonus_rate := 5,
            notes := none, status := "verified", last_verified := none } ∧
    ((-5 : Int) < 0) :=
  ⟨by decide, by decide⟩

/-- C9, amended: a present cap_amount need only parse numerically
(`int(float(v))`, truncating toward zero); every parseable value — sign
unchecked, negatives included — is accepted, and the assembled record
carries it verbatim. -/
theorem capAmountParseRule :
    ∀ (cap : String) (n : Int), parseOptionalInt cap = .ok (some n) →
      parseProgramRow [] 2 (capProbeRow cap) =
        .ok { program_key := "p1", program_name := "Prog", issuer := "Bank",
              source_url := "https://x.com", requires_activation := true,
              cap_amount := some n, cap_period := none, base_rate := 1, bonus_rate := 5,
              notes := none, status := "verified", last_verified := none } := by
  intro cap n h
  have key : parseProgramRow [] 2 (capProbeRow cap) =
      (parseOptionalInt cap >>= fun capAmount =>
        .ok { program_key := "p1", program_name := "Prog", issuer := "Bank",
              source_url := "https://x.com", requires_activation := true,
              cap_amount := capAmount, cap_period := none, base_rate := 1, bonus_rate := 5,
              notes := none, status := "verified", last_verified := none }) := rfl
  rw [key, h, bindOk]

/-- C9, witness: the parse rule applied to the concrete negative cell
`-7`. -/
theorem capAmountParseRuleWitness :
    parseProgramRow [] 2 (capProbeRow "-7") =
      .ok { program_key := "p1", program_name := "Prog", issuer := "Bank",
            source_url := "https://x.com", requires_activation := true,
            cap_amount := some (-7), cap_period := none, base_rate := 1, bonus_rate := 5,
            notes := none, status := "verified", last_verified := none } :=
  capAmountParseRule "-7" (-7) (by decide)

/-! ## C1 -/

/-- C1, counterexample: two different bundles — a single cards document
containing the separator byte `\n`, versus that document split at the
`\n` into cards and programs documents — produce the same separator-joined
byte stream, hence the same version string; re-running against the changed
documents leaves the pre-existing marker untouched even though bytes of
the included cards document changed. -/
theorem bundleSeparatorAmbiguity :
    ([[65, 10, 66]] : List (List Nat)) ≠ [[65], [66]] ∧
    bundleVersionOf [[65, 10, 66]] = bundleVersionOf [[65], [66]] ∧
    versionMarkerStep
        (some (Json.obj [("version", Json.str (bundleVersionOf [[65, 10, 66]]))]))
        [[65], [66]] ["cards.json", "programs.json"] "2025-01-02T00:00:00Z" 1 1 0 =
      .unchanged :=
  ⟨by decide, by decide, by decide⟩

/-- C1, amended: the marker is left untouched exactly when the recorded
version string equals the freshly computed one, and otherwise a fresh
marker is written carrying the freshly computed version (which then
differs from the recorded string); a document byte change induces a new
version only through the separator-joined bundle stream, so distinct
bundles with the same joined stream (or a digest-prefix collision) keep
the marker untouched. -/
theorem versionMarkerRewriteRule :
    ∀ (existing : Option Json) (files : List (List Nat)) (names : List String)
      (t : String) (c p q : Nat),
      (existingVersionOf existing = some (Json.str (bundleVersionOf files)) →
        versionMarkerStep existing files names t c p q = .unchanged) ∧
      (∀ s : String, existingVersionOf existing = some (Json.str s) →
        s ≠ bundleVersionOf files →
        versionMarkerStep existing files names t c p q =
          .written { schema_version := SCHEMA_VERSION, version := bundleVersionOf files,
                     generated_at := t, cards_count := c, programs_count := p,
                     program_quarters_count := q, bundle_files := names }) := by
  intro existing files names t c p q
  constructor
  · intro h
    unfold versionMarkerStep
    dsimp only
    rw [h]
    simp [isVersionMatch]
  · intro s hs hne
    unfold versionMarkerStep
    dsimp only
    rw [hs]
    have hm : isVersionMatch (some (Json.str s)) (bundleVersionOf files) = false := by
      simp [isVersionMatch, hne]
    rw [hm]
    rfl

/-- C1, witness: the rewrite rule applied to a marker recording the
version of the one-document bundle `[[65]]` (untouched), and to a marker
recording a different version string (fresh write). -/
theorem versionMarkerRewriteRuleWitness :
    versionMarkerStep (some (Json.obj [("version", Json.str (bundleVersionOf [[65]]))]))
        [[65]] ["cards.json"] "t" 1 0 0 = .unchanged ∧
    versionMarkerStep (some (Json.obj [("version", Json.str "sha256:000000000000")]))
        [[65]] ["cards.json"] "t" 1 0 0 =
      .written { schema_version := SCHEMA_VERSION, version := bundleVersionOf [[65]],
                 generated_at := "t", cards_count := 1, programs_count := 0,
                 program_quarters_count := 0, bundle_files := ["cards.json"] } :=
  ⟨(versionMarkerRewriteRule (some (Json.obj [("version", Json.str (bundleVersionOf [[65]]))]))
      [[65]] ["cards.json"] "t" 1 0 0).1 rfl,
    (versionMarkerRewriteRule (some (Json.obj [("version", Json.str "sha256:000000000000")]))
      [[65]] ["cards.json"] "t" 1 0 0).2 "sha256:000000000000" rfl (by decide)⟩

/-! ## C7 -/

/-- A decimal digit character. -/
def digitChar (n : Nat) : Char := Char.ofNat ('0'.toNat + n)

/-- Two-digit zero-padded rendering of `n < 100`. -/
def pad2 (n : Nat) : List Char := [digitChar (n / 10), digitChar (n % 10)]

/-- The canonical zero-padded `YYYY-MM-DD` rendering of a calendar date:
four-digit year, two-digit month and day. -/
def canonDate (y m d : Nat) : String :=
  String.mk (pad2 (y / 100) ++ (pad2 (y % 100) ++ ('-' :: (pad2 m ++ ('-' :: pad2 d)))))

/-- Lexicographic comparison distributes over concatenation of
equal-length leading blocks. -/
theorem strCmp_append (a : List Char) : ∀ (b x y : List Char), a.length = b.length →
    strCmp (a ++ x) (b ++ y) = (strCmp a b).then (strCmp x y) := by
  induction a with
  | nil =>
    intro b x y h
    have hb : b = [] := List.length_eq_zero.mp h.symm
    subst hb
    rfl
  | cons c cs ih =>
    intro b x y h
    cases b with
    | nil => exact absurd h (by simp)
    | cons d ds =>
      have hlen : cs.length = ds.length := by simpa using h
      simp only [List.cons_append, strCmp]
      by_cases h1 : c.val < d.val
      · simp [h1, Ordering.then]
      · by_cases h2 : d.val < c.val
        · simp [h1, h2, Ordering.then]
        · simp only [if_neg h1, if_neg h2]
          exact ih ds x y hlen

set_option maxRecDepth 8192 in
/-- On two-digit zero-padded numerals, lexicographic order is numeric
order. -/
theorem pad2_cmp_fin : ∀ a b : Fin 100, strCmp (pad2 a.val) (pad2 b.val) = compare a.val b.val := by
  decide

/-- `pad2_cmp_fin` for bounded naturals. -/
theorem pad2_cmp (a b : Nat) (ha : a < 100) (hb : b < 100) :
    strCmp (pad2 a) (pad2 b) = compare a b :=
  pad2_cmp_fin ⟨a, ha⟩ ⟨b, hb⟩

/-- Chaining comparisons of the high and low parts of a positional
numeral compares the combined values. -/
theorem compare_then_compose (a1 a2 b1 b2 k : Nat) (h1 : b1 < k) (h2 : b2 < k) :
    (compare a1 a2).then (compare b1 b2) = compare (a1 * k + b1) (a2 * k + b2) := by
  rcases Nat.lt_trichotomy a1 a2 with h | h | h
  · have hx : a1 * k + b1 < a2 * k + b2 := by
      calc a1 * k + b1 < a1 * k + k := by omega
        _ = (a1 + 1) * k := by ring
        _ ≤ a2 * k := Nat.mul_le_mul_right k h
        _ ≤ a2 * k + b2 := Nat.le_add_right _ _
    rw [Nat.compare_eq_lt.mpr h, Nat.compare_eq_lt.mpr hx]
    rfl
  · subst h
    rcases Nat.lt_trichotomy b1 b2 with hb | hb | hb
    · rw [Nat.compare_eq_eq.mpr rfl, Nat.compare_eq_lt.mpr hb,
        Nat.compare_eq_lt.mpr (by omega)]
      rfl
    · subst hb
      rw [Nat.compare_eq_eq.mpr rfl, Nat.compare_eq_eq.mpr rfl, Nat.compare_eq_eq.mpr rfl]
      rfl
    · rw [Nat.compare_eq_eq.mpr rfl, Nat.compare_eq_gt.mpr hb,
        Nat.compare_eq_gt.mpr (by omega)]
      rfl
  · have hx : a2 * k + b2 < a1 * k + b1 := by
      calc a2 * k + b2 < a2 * k + k := by omega
        _ = (a2 + 1) * k := by ring
        _ ≤ a1 * k := Nat.mul_le_mul_right k h
        _ ≤ a1 * k + b1 := Nat.le_add_right _ _
    rw [Nat.compare_eq_gt.mpr h, Nat.compare_eq_gt.mpr hx]
    rfl

/-- On canonical zero-padded dates, Python string comparison is
chronological comparison. -/
theorem canonDate_cmp (y1 m1 d1 y2 m2 d2 : Nat)
    (hy1 : y1 < 10000) (hy2 : y2 < 10000) (hm1 : m1 < 100) (hm2 : m2 < 100)
    (hd1 : d1 < 100) (hd2 : d2 < 100) :
    strCmp (canonDate y1 m1 d1).data (canonDate y2 m2 d2).data =
      compare (dateNum (y1, m1, d1)) (dateNum (y2, m2, d2)) := by
  have e1 : (canonDate y1 m1 d1).data =
      pad2 (y1 / 100) ++ (pad2 (y1 % 100) ++ (['-'] ++ (pad2 m1 ++ (['-'] ++ pad2 d1)))) := rfl
  have e2 : (canonDate y2 m2 d2).data =
      pad2 (y2 / 100) ++ (pad2 (y2 % 100) ++ (['-'] ++ (pad2 m2 ++ (['-'] ++ pad2 d2)))) := rfl
  rw [e1, e2]
  rw [strCmp_append _ _ _ _ (by simp [pad2])]
  rw [strCmp_append _ _ _ _ (by simp [pad2])]
  rw [strCmp_append _ _ _ _ rfl]
  rw [strCmp_append _ _ _ _ (by simp [pad2])]
  rw [strCmp_append _ _ _ _ rfl]
  rw [show strCmp ['-'] ['-'] = Ordering.eq from rfl]
  rw [show ∀ o : Ordering, Ordering.eq.then o = o from fun o => rfl]
  rw [show ∀ o : Ordering, Ordering.eq.then o = o from fun o => rfl]
  rw [pad2_cmp (y1 / 100) (y2 / 100) (by omega) (by omega)]
  rw [pad2_cmp (y1 % 100) (y2 % 100) (by omega) (by omega)]
  rw [pad2_cmp m1 m2 hm1 hm2]
  rw [pad2_cmp d1 d2 hd1 hd2]
  rw [compare_then_compose m1 m2 d1 d2 100 hd1 hd2]
  rw [compare_then_compose (y1 % 100) (y2 % 100) _ _ 10000 (by omega) (by omega)]
  rw [compare_then_compose (y1 / 100) (y2 / 100) _ _ 1000000 (by omega) (by omega)]
  have n1 : y1 / 100 * 1000000 + (y1 % 100 * 10000 + (m1 * 100 + d1)) =
      dateNum (y1, m1, d1) := by
    unfold dateNum
    dsimp only
    omega
  have n2 : y2 / 100 * 1000000 + (y2 % 100 * 10000 + (m2 * 100 + d2)) =
      dateNum (y2, m2, d2) := by
    unfold dateNum
    dsimp only
    omega
  rw [n1, n2]

/-- `dropWhile` is the identity on a list none of whose elements satisfy
the predicate. -/
theorem dropWhile_all_neg {p : Char → Bool} (l : List Char) (hl : ∀ c ∈ l, p c = false) :
    l.dropWhile p = l := by
  cases l with
  | nil => rfl
  | cons a t => simp [List.dropWhile_cons, hl a (List.mem_cons_self a t)]

/-- `stripChars` is the identity when no character is strippable. -/
theorem stripChars_all_neg {p : Char → Bool} (l : List Char) (hl : ∀ c ∈ l, p c = false) :
    stripChars p l = l := by
  unfold stripChars
  rw [dropWhile_all_neg l hl]
  rw [dropWhile_all_neg l.reverse (fun c hc => hl c (List.mem_reverse.mp hc))]
  exact List.reverse_reverse l

/-- Digit characters are not Python whitespace. -/
theorem isPySpace_digitChar : ∀ k : Fin 10, isPySpace (digitChar k.val) = false := by decide

/-- A canonical date string is already stripped. -/
theorem canonDate_strip (y m d : Nat) (hy : y < 10000) (hm : m < 100) (hd : d < 100) :
    pyStrip (canonDate y m d) = canonDate y m d := by
  have hall : ∀ c ∈ (canonDate y m d).data, isPySpace c = false := by
    intro c hc
    have hdata : (canonDate y m d).data =
        pad2 (y / 100) ++ (pad2 (y % 100) ++ ('-' :: (pad2 m ++ ('-' :: pad2 d)))) := rfl
    rw [hdata] at hc
    simp only [pad2, List.mem_append, List.mem_cons, List.mem_singleton,
      List.not_mem_nil, or_false] at hc
    rcases hc with (h | h) | ((h | h) | (h | ((h | h) | (h | (h | h))))) <;>
      first
      | (subst h; exact isPySpace_digitChar ⟨_, by omega⟩)
      | (subst h; decide)
  unfold pyStrip
  rw [stripChars_all_neg _ hall]

/-- `validate_date_yyyy_mm_dd` accepts a canonical date that the
`strptime` model parses back to its components and that passes the
calendar check, for any non-`verified_date` field. -/
theorem validateDate_canon (today : Nat × Nat × Nat) (y m d : Nat) (fieldName rowId : String)
    (hy : y < 10000) (hm : m < 100) (hd : d < 100)
    (hp : strptimeYmd (canonDate y m d).data = some (y, m, d))
    (hcal : ¬(y = 0 ∨ daysInMonth y m < d))
    (hfield : fieldName ≠ "verified_date") :
    validateDateYyyyMmDd today (canonDate y m d) fieldName rowId = .ok (canonDate y m d) := by
  unfold validateDateYyyyMmDd
  dsimp only
  rw [canonDate_strip y m d hy hm hd, hp]
  dsimp only
  rw [if_neg hcal]
  rw [if_neg (fun hand => hfield hand.1)]
  rfl

/-- An otherwise-valid program-quarters row whose two date cells are
parameters. -/
def quarterDateProbeRow (startD endD : String) : Row :=
  [("program_key", "p1"), ("start_date", startD), ("end_date", endD),
   ("category", "gas"), ("status", "verified"), ("last_verified", "")]

/-- C7, counterexample: `strptime` accepts the non-padded date `2024-9-01`
for `end_date`; it is chronologically BEFORE the start date `2024-10-01`,
yet the string comparison used by the code does not flag it and the row is
accepted. -/
theorem quarterDateOrderBypass :
    validateDateYyyyMmDd (2025, 1, 1) "2024-10-01" "start_date" "r" = .ok "2024-10-01" ∧
    validateDateYyyyMmDd (2025, 1, 1) "2024-9-01" "end_date" "r" = .ok "2024-9-01" ∧
    dateNum (2024, 9, 1) < dateNum (2024, 10, 1) ∧
    parseQuarterRow (2025, 1, 1) 2 (quarterDateProbeRow "2024-10-01" "2024-9-01") =
      .ok { program_key := "p1", start_date := "2024-10-01", end_date := "2024-9-01",
            category := "gas", status := "verified", last_verified := none } :=
  ⟨by decide, by decide, by decide, by decide⟩

/-- C7, amended: for dates written in canonical zero-padded `YYYY-MM-DD`
form (where the code's lexicographic string comparison coincides with
chronological order), a program-quarter row fails with `ValidationError`
exactly when `end_date` is chronologically earlier than `start_date`;
the parser also accepts non-padded forms, for which the comparison can
miss a reversed range. -/
theorem quarterDateOrderPadded :
    ∀ (today : Nat × Nat × Nat) (y1 m1 d1 y2 m2 d2 : Nat),
      y1 < 10000 → m1 < 100 → d1 < 100 → y2 < 10000 → m2 < 100 → d2 < 100 →
      strptimeYmd (canonDate y1 m1 d1).data = some (y1, m1, d1) →
      strptimeYmd (canonDate y2 m2 d2).data = some (y2, m2, d2) →
      ¬(y1 = 0 ∨ daysInMonth y1 m1 < d1) →
      ¬(y2 = 0 ∨ daysInMonth y2 m2 < d2) →
      ((∃ e, parseQuarterRow today 2
          (quarterDateProbeRow (canonDate y1 m1 d1) (canonDate y2 m2 d2)) = .error e) ↔
        dateNum (y2, m2, d2) < dateNum (y1, m1, d1)) := by
  intro today y1 m1 d1 y2 m2 d2 hy1 hm1 hd1 hy2 hm2 hd2 hp1 hp2 hc1 hc2
  have key : parseQuarterRow today 2
      (quarterDateProbeRow (canonDate y1 m1 d1) (canonDate y2 m2 d2)) =
      (validateDateYyyyMmDd today (canonDate y1 m1 d1) "start_date"
          "program_quarters_row2:p1" >>= fun startDate =>
        validateDateYyyyMmDd today (canonDate y2 m2 d2) "end_date"
          "program_quarters_row2:p1" >>= fun endDate =>
        if pyStrLt endDate startDate then
          Except.error ("[program_quarters_row2:p1] end_date " ++ endDate ++
            " is before start_date " ++ startDate ++ ".")
        else
          Except.ok { program_key := "p1", start_date := startDate, end_date := endDate,
                      category := "gas", status := "verified",
                      last_verified := none }) := rfl
  rw [key]
  rw [validateDate_canon today y1 m1 d1 _ _ hy1 hm1 hd1 hp1 hc1 (by decide), bindOk]
  rw [validateDate_canon today y2 m2 d2 _ _ hy2 hm2 hd2 hp2 hc2 (by decide), bindOk]
  have hcmp : pyStrLt (canonDate y2 m2 d2) (canonDate y1 m1 d1) = true ↔
      dateNum (y2, m2, d2) < dateNum (y1, m1, d1) := by
    unfold pyStrLt
    rw [canonDate_cmp y2 m2 d2 y1 m1 d1 hy2 hy1 hm2 hm1 hd2 hd1]
    cases hco : compare (dateNum (y2, m2, d2)) (dateNum (y1, m1, d1)) with
    | lt => exact ⟨fun _ => Nat.compare_eq_lt.mp hco, fun _ => rfl⟩
    | eq =>
      have heq := Nat.compare_eq_eq.mp hco
      exact ⟨fun h => absurd h (by decide), fun h => absurd h (by omega)⟩
    | gt =>
      have hgt := Nat.compare_eq_gt.mp hco
      exact ⟨fun h => absurd h (by decide), fun h => absurd h (by omega)⟩
  by_cases hlt : dateNum (y2, m2, d2) < dateNum (y1, m1, d1)
  · rw [if_pos (hcmp.mpr hlt)]
    simp [hlt]
  · rw [if_neg (fun h => hlt (hcmp.mp h))]
    simp [hlt]

/-- C7, witness: the padded rule applied to start `2024-10-01`, end
`2024-09-01` (both canonical), where the reversed range is flagged. -/
theorem quarterDateOrderPaddedWitness :
    (∃ e, parseQuarterRow (2025, 1, 1) 2
        (quarterDateProbeRow (canonDate 2024 10 1) (canonDate 2024 9 1)) = .error e) ↔
      dateNum (2024, 9, 1) < dateNum (2024, 10, 1) :=
  quarterDateOrderPadded (2025, 1, 1) 2024 10 1 2024 9 1 (by decide) (by decide)
    (by decide) (by decide) (by decide) (by decide) (by decide) (by decide)
    (by decide) (by decide)

end RightCard
